import Mathlib

/-!
Verification of the subscription-lifecycle and payment-verification core of
the backend (FastAPI + MongoDB service).  The Python source is shallowly
embedded: timestamps are integers (seconds, naive UTC), the Mongo
collections are lists in insertion order, every service operation is an
explicit state-passing function, and code that can raise returns `Except`.
External collaborators (the Razorpay client, password hashing, the Python
standard library's ISO-date parsing) are modelled by explicit parameters or
small executable models, each marked in its doc comment.

Conventions:
  * `datetime.utcnow()` is a single `now : Int` parameter per operation
    (the source may call it several times inside one operation; none of the
    verified properties depends on that sub-second drift).
  * Mongo `find_one` without a sort returns the first match in insertion
    order; `update_one` updates the first match.
  * The string munging that converts `_id` / `user_id` ObjectIds to strings
    before returning a document is dropped: ids are plain `Nat`s.
-/

/-- Seconds in one day; `timedelta(days = d)` is `d * secondsPerDay`. -/
def secondsPerDay : Int := 86400

/-- Embeds `app/utils/subscription.py::calculate_end_date`:
`days = months * 30; return start_date + timedelta(days=days)`.
Timestamps are seconds. -/
def calculate_end_date (start_date months : Int) : Int :=
  start_date + months * 30 * secondsPerDay

/-- A Python value stored under a dict key, as far as the subscription
utilities can distinguish it: a `datetime`, a `str`, `None`
(also: key absent, since `dict.get` returns `None`), or any other type. -/
inductive PyVal where
  | dt (t : Int)
  | str (s : String)
  | null
  | other
deriving DecidableEq, Repr

/-- Numeric value of an ASCII digit character. -/
def digitVal (c : Char) : Option Nat :=
  if c.isDigit then some (c.toNat - 48) else none

/-- Two-digit number. -/
def twoDigits (a b : Char) : Option Nat := do
  let x ← digitVal a
  let y ← digitVal b
  pure (10 * x + y)

/-- Days from 1970-01-01 of a proleptic-Gregorian civil date
(standard era-based conversion, as CPython's date ordinal arithmetic). -/
def daysFromCivil (y : Int) (m d : Nat) : Int :=
  let y' : Int := if m ≤ 2 then y - 1 else y
  let era : Int := y'.fdiv 400
  let yoe : Nat := (y' - era * 400).toNat
  let mp : Nat := if m > 2 then m - 3 else m + 9
  let doy : Nat := (153 * mp + 2) / 5 + d - 1
  let doe : Nat := yoe * 365 + yoe / 4 - yoe / 100 + doy
  era * 146097 + (doe : Int) - 719468

/-- Parse the optional fraction-of-second suffix: empty, or a dot followed
by one or more digits (the fraction is ignored; sub-second precision is
irrelevant to every property proved here). -/
def parseFraction : List Char → Option Unit
  | [] => some ()
  | '.' :: rest =>
      if rest ≠ [] ∧ rest.all Char.isDigit then some () else none
  | _ => none

/-- Parse the time-of-day part that may follow the date: empty, or a
separator — any single character, as in CPython, which reads the time
from the character after position 10 regardless of what the separator is —
followed by `HH`, optionally `:MM`, `:SS` and a fraction; returns seconds
since midnight.  A trailing UTC-offset (`+HH:MM`, as produced by the
caller's `replace("Z", "+00:00")` from a `...Z` timestamp) is rejected:
it would yield an *aware* `datetime`, and the only use sites compare
against the naive `datetime.utcnow()` or feed `timedelta` arithmetic
whose result is again compared naively, so in this code an aware value
behaves as a raised `TypeError` — folded into the parse-failure case of
the model. -/
def parseTimePart : List Char → Option Nat
  | [] => some 0
  | _sep :: h1 :: h2 :: rest => do
      let h ← twoDigits h1 h2
      if h > 23 then none else
      match rest with
      | [] => pure (h * 3600)
      | ':' :: m1 :: m2 :: rest2 => do
          let mi ← twoDigits m1 m2
          if mi > 59 then none else
          match rest2 with
          | [] => pure (h * 3600 + mi * 60)
          | ':' :: s1 :: s2 :: rest3 => do
              let s ← twoDigits s1 s2
              if s > 59 then none else
              let _ ← parseFraction rest3
              pure (h * 3600 + mi * 60 + s)
          | _ => none
      | _ => none
  | _ => none

/-- Model of the external collaborator `datetime.fromisoformat` (Python
standard library), on the format every supported CPython (3.7+) accepts:
`YYYY-MM-DD[<any sep>HH[:MM[:SS[.f+]]]]`; `none` models a raised
`ValueError` (or, per `parseTimePart`, an aware result unusable at the
call sites).  Day-of-month is bounds-checked against 31 only, not
per-month length, and 3.11-only extensions (basic-format dates such as
`20250102`, comma fractions, week dates, a bare trailing `Z` offset) are
outside the model.  No theorem's scope depends on this accept-side
boundary: the one theorem that quantifies over strings is restricted to
digit-free strings, which every CPython version rejects — see
`fromisoformat_digit_free`, whose soundness needs only that every format
`fromisoformat` accepts starts with a digit while `replace("Z", "+00:00")`
can only put a leading `+` there. -/
def fromisoformat (s : String) : Option Int :=
  match s.data with
  | y1 :: y2 :: y3 :: y4 :: '-' :: m1 :: m2 :: '-' :: d1 :: d2 :: rest => do
      let ya ← digitVal y1
      let yb ← digitVal y2
      let yc ← digitVal y3
      let yd ← digitVal y4
      let y : Nat := ((ya * 10 + yb) * 10 + yc) * 10 + yd
      let mo ← twoDigits m1 m2
      let da ← twoDigits d1 d2
      if mo < 1 ∨ mo > 12 ∨ da < 1 ∨ da > 31 then none else
      let secs ← parseTimePart rest
      pure (daysFromCivil (y : Int) mo da * secondsPerDay + (secs : Int))
  | _ => none

/-- Replace every `Z` by `+00:00` (character-level model of
`str.replace("Z", "+00:00")`, valid because the pattern is one character). -/
def replaceZ : List Char → List Char
  | [] => []
  | 'Z' :: rest => '+' :: '0' :: '0' :: ':' :: '0' :: '0' :: replaceZ rest
  | c :: rest => c :: replaceZ rest

/-- The `end_date.replace("Z", "+00:00")` preprocessing applied before
`fromisoformat` in the source. -/
def isoPre (s : String) : String :=
  ⟨replaceZ s.data⟩

/-- Decidable equality for `Except`, needed to evaluate concrete runs. -/
def Except.decEq {ε α : Type} [DecidableEq ε] [DecidableEq α] :
    (a b : Except ε α) → Decidable (a = b)
  | .error e, .error e' =>
      if h : e = e' then .isTrue (by rw [h])
      else .isFalse (by intro hc; cases hc; exact h rfl)
  | .error _, .ok _ => .isFalse (by intro hc; cases hc)
  | .ok _, .error _ => .isFalse (by intro hc; cases hc)
  | .ok a, .ok b =>
      if h : a = b then .isTrue (by rw [h])
      else .isFalse (by intro hc; cases hc; exact h rfl)

instance {ε α : Type} [DecidableEq ε] [DecidableEq α] :
    DecidableEq (Except ε α) :=
  Except.decEq

/-- A subscription document as the utility functions see it: a dict whose
`status` key may be absent and whose `end_date` key may hold anything. -/
structure SubRecord where
  status : Option String
  end_date : PyVal
deriving DecidableEq, Repr

/-- Embeds `app/utils/subscription.py::check_subscription_expiry`.
`Except.error ()` models an uncaught exception (the `ValueError` from
`fromisoformat` on a malformed string — there is no try/except here). -/
def check_subscription_expiry (now : Int) (subscription : SubRecord) :
    Except Unit Bool :=
  if subscription.status = some "cancelled" then
    .ok false
  else
    match subscription.end_date with
    | .str s =>
        match fromisoformat (isoPre s) with
        | some t => .ok (decide (now > t))
        | none => .error ()
    | .dt t => .ok (decide (now > t))
    | _ => .ok true

/-- Embeds `app/utils/subscription.py::is_subscription_active`. -/
def is_subscription_active (now : Int) (subscription : SubRecord) :
    Except Unit Bool :=
  if subscription.status ≠ some "active" then
    .ok false
  else
    (check_subscription_expiry now subscription).map (fun b => !b)

example : fromisoformat "2025-01-02" = some (20090 * 86400) := by decide
example : fromisoformat "2025-01-02T03:04:05" =
    some (20090 * 86400 + 3 * 3600 + 4 * 60 + 5) := by decide
example : fromisoformat (isoPre "2025-01-02T03:04:05Z") = none := by decide
example : (fromisoformat "2999-01-02_00:00").isSome = true := by decide
example : (fromisoformat "2025-01-02T03").isSome = true := by decide
example : fromisoformat "garbage" = none := by decide
example : check_subscription_expiry 0
    { status := some "active", end_date := .str "garbage" } = .error () := by
  decide

/-- A row of the `subscriptions` collection
(`app/models/subscription.py`, fields as written by the services).
`end_date` is `PyVal` because the loosely-typed store can hold strings or
junk there; every service write stores a `datetime` (`PyVal.dt`). -/
structure Subscription where
  sid : Nat
  user_id : Nat
  plan_id : String
  status : String
  start_date : Int
  end_date : PyVal
  created_at : Int
  updated_at : Int
  cancelled_at : Option Int
deriving DecidableEq, Repr

/-- A row of the `payments` collection (`app/models/payment.py`).  `amount`
is in integer paise-free currency units; its value is irrelevant to every
property proved here. -/
structure Payment where
  pid : Nat
  user_id : Option Nat
  email : String
  plan_id : String
  amount : Int
  currency : String
  razorpay_order_id : String
  razorpay_payment_id : Option String
  razorpay_signature : Option String
  status : String
  created_at : Int
deriving DecidableEq, Repr

/-- The slice of a `users` document that `verify_user` touches. -/
structure User where
  uid : Nat
  email : String
  password_hash : String
  last_login : Option Int
deriving DecidableEq, Repr

/-- The document store: each collection is a list in insertion order;
`nextId` generates fresh `_id`s for inserts. -/
structure DBState where
  users : List User
  subs : List Subscription
  payments : List Payment
  nextId : Nat
deriving DecidableEq, Repr

/-- Mongo `update_one`: rewrite the first element matching the filter. -/
def updateFirst {α : Type} (p : α → Bool) (f : α → α) : List α → List α
  | [] => []
  | x :: xs => if p x then f x :: xs else x :: updateFirst p f xs

/-- View a stored subscription as the dict the utility functions receive. -/
def Subscription.toRecord (s : Subscription) : SubRecord :=
  { status := some s.status, end_date := s.end_date }

/-- Embeds `SubscriptionService.create_subscription`. -/
def create_subscription (now : Int) (user_id : Nat) (months : Int)
    (start_date : Option Int) (st : DBState) : Subscription × DBState :=
  let start := start_date.getD now
  let endDate := calculate_end_date start months
  let sub : Subscription :=
    { sid := st.nextId, user_id := user_id, plan_id := "monthly",
      status := "active", start_date := start, end_date := .dt endDate,
      created_at := now, updated_at := now, cancelled_at := none }
  (sub, { st with subs := st.subs ++ [sub], nextId := st.nextId + 1 })

/-- The filter `{"user_id": u, "status": {"$in": ["active", "expired"]}}`. -/
def isCurrentFor (user_id : Nat) (s : Subscription) : Bool :=
  s.user_id == user_id && (s.status == "active" || s.status == "expired")

/-- First element under `sort=[("created_at", -1)]`; on equal keys the
earlier-inserted row is kept (Mongo leaves tie order unspecified). -/
def latestCreated : List Subscription → Option Subscription
  | [] => none
  | s :: rest =>
      match latestCreated rest with
      | none => some s
      | some t => if t.created_at > s.created_at then some t else some s

/-- Embeds `SubscriptionService.get_user_subscription`: a pure
`find_one` query — the source performs no write here. -/
def get_user_subscription (user_id : Nat) (st : DBState) :
    Option Subscription :=
  latestCreated (st.subs.filter (isCurrentFor user_id))

/-- Embeds `SubscriptionService.extend_subscription`.  `Except.error ()`
models the uncaught `ValueError`/`TypeError` when the stored `end_date` is
a malformed string or not a date at all. -/
def extend_subscription (now : Int) (user_id : Nat) (months : Int)
    (st : DBState) : Except Unit (Option Subscription × DBState) :=
  match st.subs.find? (fun s => s.user_id == user_id && s.status == "active") with
  | none => .ok (none, st)
  | some sub => do
      let current_end_date ←
        match sub.end_date with
        | .dt t => Except.ok t
        | .str s =>
            match fromisoformat (isoPre s) with
            | some t => Except.ok t
            | none => Except.error ()
        | _ => Except.error ()
      let new_end_date := calculate_end_date current_end_date months
      let subs' := updateFirst (fun r => r.sid == sub.sid)
        (fun r => { r with end_date := .dt new_end_date, updated_at := now })
        st.subs
      let st' := { st with subs := subs' }
      match subs'.find? (fun r => r.sid == sub.sid) with
      | some r => .ok (some r, st')
      | none => .error ()

/-- The `update_many` write of `renew_subscription`, applied to one row:
`{"$set": {"status": "cancelled", "cancelled_at": now, "updated_at": now}}`
on rows matching `isCurrentFor`. -/
def cancelCurrent (now : Int) (user_id : Nat) (s : Subscription) :
    Subscription :=
  if isCurrentFor user_id s then
    { s with status := "cancelled", cancelled_at := some now,
             updated_at := now }
  else s

/-- Embeds `SubscriptionService.renew_subscription`. -/
def renew_subscription (now : Int) (user_id : Nat) (months : Int)
    (st : DBState) : Subscription × DBState :=
  let st1 := { st with subs := st.subs.map (cancelCurrent now user_id) }
  create_subscription now user_id months none st1

/-- Embeds `PaymentService.get_payment_by_order_id`. -/
def get_payment_by_order_id (order_id : String) (st : DBState) :
    Option Payment :=
  st.payments.find? (fun p => p.razorpay_order_id == order_id)

/-- Embeds `PaymentService.update_payment_status`: unconditional `$set` of
payment id, signature and status on the row found by order id; the store
itself checks no status precondition. -/
def update_payment_status (order_id payment_id signature status : String)
    (st : DBState) : Option Payment × DBState :=
  match get_payment_by_order_id order_id st with
  | none => (none, st)
  | some p =>
      let ps' := updateFirst (fun q => q.pid == p.pid)
        (fun q => { q with razorpay_payment_id := some payment_id,
                           razorpay_signature := some signature,
                           status := status })
        st.payments
      (ps'.find? (fun q => q.pid == p.pid), { st with payments := ps' })

/-- The error responses of the `/payments/verify` route. -/
inductive VerifyError where
  | notFound
  | forbidden
  | invalidSignature
deriving DecidableEq, Repr

/-- Embeds the `/payments/verify` route handler
(`app/routers/payment.py::verify_payment`).  `sigValid` is the boolean
result of the external Razorpay signature check
(`PaymentService.verify_payment` returns exactly a bool).  Note the
handler checks existence, ownership and signature — but never the current
`status` of the payment — before unconditionally marking it completed and
renewing the subscription. -/
def verify_payment (sigValid : Bool) (now : Int) (current_user : Nat)
    (order_id payment_id signature : String) (st : DBState) :
    Except VerifyError (Option Payment × DBState) :=
  match get_payment_by_order_id order_id st with
  | none => .error .notFound
  | some payment =>
      if payment.user_id ≠ some current_user then .error .forbidden
      else if ¬ sigValid then .error .invalidSignature
      else
        let (payment', st1) :=
          update_payment_status order_id payment_id signature "completed" st
        let (_, st2) := renew_subscription now current_user 1 st1
        .ok (payment', st2)

/-- Embeds the `/payments/webhook` route handler
(`app/routers/payment.py::razorpay_webhook`) after body decoding:
`sigValid` is the external webhook-signature check, `event` the parsed
event name, `order_id` the (possibly absent or empty, hence falsy)
`payload.payment.entity.order_id`, `entity_payment_id` the
`payment_data.get("id", "")`.  Only a `payment.captured` event for a
payment still in `pending` changes state. -/
def razorpay_webhook (sigValid : Bool) (now : Int) (event : String)
    (order_id : Option String) (entity_payment_id signature : String)
    (st : DBState) : Except Unit DBState :=
  if ¬ sigValid then .error ()
  else if event = "payment.captured" then
    match order_id with
    | some oid =>
        if oid = "" then .ok st
        else
          match get_payment_by_order_id oid st with
          | some payment =>
              if payment.status = "pending" then
                let (_, st1) :=
                  update_payment_status oid entity_payment_id signature
                    "completed" st
                match payment.user_id with
                | some u => .ok (renew_subscription now u 1 st1).2
                | none => .ok st1
              else .ok st
          | none => .ok st
    | none => .ok st
  else .ok st

/-- Modelled from the spec: password verification lives in
`app/utils/security.py`, which is not among the sources; the spec treats
"password hashing calls" as thin plumbing.  Modelled as an opaque check
instantiated by literal comparison of password and stored hash. -/
def verify_password (plain hashed : String) : Bool :=
  plain == hashed

/-- Embeds `UserService.verify_user`: credential check, `last_login`
update, then the lazy-expiry side effect — if the user's `active`
subscription row is past its end date it is persisted as `expired`.
An exception from `check_subscription_expiry` propagates. -/
def verify_user (now : Int) (email password : String) (st : DBState) :
    Except Unit (Option User × DBState) :=
  match st.users.find? (fun u => u.email == email) with
  | none => .ok (none, st)
  | some user =>
      if ¬ verify_password password user.password_hash then .ok (none, st)
      else
        let users' := updateFirst (fun u => u.uid == user.uid)
          (fun u => { u with last_login := some now }) st.users
        let st1 := { st with users := users' }
        match st1.subs.find?
            (fun s => s.user_id == user.uid && s.status == "active") with
        | none => .ok (some user, st1)
        | some subscription =>
            match check_subscription_expiry now subscription.toRecord with
            | .error e => .error e
            | .ok expired =>
                if expired then
                  let subs' := updateFirst (fun r => r.sid == subscription.sid)
                    (fun r => { r with status := "expired", updated_at := now })
                    st1.subs
                  .ok (some user, { st1 with subs := subs' })
                else .ok (some user, st1)

/-- Outcome of one call to the external Razorpay order-creation endpoint
(`razorpay_client.order.create`, run in the thread pool), by the exception
class `PaymentService.create_order` distinguishes. -/
inductive AttemptOutcome where
  | success (oid : String)
  | badRequest
  | connError
  | timeoutErr
  | serverError
  | otherError
deriving DecidableEq, Repr

/-- The exception classes `create_order` can raise, as its caller
(`/payments/create-order`) maps them: `ValueError` becomes 400,
`ConnectionError` becomes 503, anything else 500.  Messages elided. -/
inductive OrderError where
  | validationError
  | serviceUnavailable
  | internalError
deriving DecidableEq, Repr

/-- `isinstance(e, (ConnectionError, TimeoutError, razorpay.errors.ServerError))`. -/
def isRetryable : AttemptOutcome → Bool
  | .connError => true
  | .timeoutErr => true
  | .serverError => true
  | _ => false

/-- `max_retries = 3` in `PaymentService.create_order`. -/
def max_retries : Nat := 3

/-- The `for attempt in range(max_retries)` loop of
`PaymentService.create_order`.  `outcomes i` is the result of the i-th
gateway call; the second component records the `asyncio.sleep` delays in
seconds (base 1, doubled per retry — `1.0 * 2.0` is exact in the source's
float arithmetic too).  The `else` arm past the loop bound is the
trailing `raise ConnectionError(... after 3 attempts ...)`, unreachable
from `attempt = 0` because the last iteration raises on every failure. -/
def create_order_go (outcomes : Nat → AttemptOutcome) (attempt delay : Nat)
    (slept : List Nat) : Except OrderError String × List Nat :=
  if _h : attempt < max_retries then
    match outcomes attempt with
    | .success oid => (.ok oid, slept)
    | .badRequest => (.error .validationError, slept)
    | e =>
        if attempt < max_retries - 1 ∧ isRetryable e then
          create_order_go outcomes (attempt + 1) (delay * 2) (slept ++ [delay])
        else
          match e with
          | .serverError => (.error .serviceUnavailable, slept)
          | .connError => (.error .serviceUnavailable, slept)
          | .timeoutErr => (.error .serviceUnavailable, slept)
          | _ => (.error .internalError, slept)
  else
    (.error .serviceUnavailable, slept)
termination_by max_retries - attempt
decreasing_by simp_wf; omega

/-- Embeds `PaymentService.create_order` (the retry loop; the amount/paise
conversion touches only the request payload, not the control flow). -/
def create_order (outcomes : Nat → AttemptOutcome) :
    Except OrderError String × List Nat :=
  create_order_go outcomes 0 1 []

/-- Number of subscription rows of a user that carry status `active`. -/
def countActive (u : Nat) (st : DBState) : Nat :=
  (st.subs.filter (fun s => s.user_id == u && s.status == "active")).length

/-- Example: a payment already `completed`, for user 1, order `order1`. -/
def exPayment1 : Payment :=
  { pid := 10, user_id := some 1, email := "a@b.c", plan_id := "monthly",
    amount := 100, currency := "INR", razorpay_order_id := "order1",
    razorpay_payment_id := some "pay1", razorpay_signature := some "sig1",
    status := "completed", created_at := 50 }

/-- Example: the active subscription created by the first verify call. -/
def exSubA : Subscription :=
  { sid := 20, user_id := 1, plan_id := "monthly", status := "active",
    start_date := 50, end_date := .dt (50 + 30 * 86400), created_at := 50,
    updated_at := 50, cancelled_at := none }

/-- Example state after a first successful verify: one completed payment,
one active subscription for user 1. -/
def exSt1 : DBState :=
  { users := [], subs := [exSubA], payments := [exPayment1], nextId := 21 }

/-- Example: an `active` subscription row whose end date (100) is past. -/
def exSubLate : Subscription :=
  { sid := 30, user_id := 1, plan_id := "monthly", status := "active",
    start_date := 0, end_date := .dt 100, created_at := 0,
    updated_at := 0, cancelled_at := none }

/-- Example user for the login-path theorems. -/
def exUser : User :=
  { uid := 1, email := "a@b.c", password_hash := "pw", last_login := none }

/-- Example state: user 1 with a stale `active` subscription. -/
def exSt2 : DBState :=
  { users := [exUser], subs := [exSubLate], payments := [], nextId := 31 }

/-- Claim C8: for every start date `d` and months `m ≥ 0`,
`calculate_end_date d m` is `d` plus exactly `30 * m` days (fixed 30-day
months); the function is a total pure function. -/
theorem calculate_end_date_spec (d months : Int) (_hm : 0 ≤ months) :
    calculate_end_date d months = d + 30 * months * secondsPerDay := by
  unfold calculate_end_date
  ring

theorem calculate_end_date_spec_witness :
    calculate_end_date 1000 2 = 1000 + 30 * 2 * secondsPerDay :=
  calculate_end_date_spec 1000 2 (by decide)

/-- Claim C9: `extend_subscription` for a user with no `active` row
returns `none` and leaves the store byte-for-byte unchanged. -/
theorem extend_subscription_no_active (now : Int) (u : Nat) (months : Int)
    (st : DBState)
    (h : st.subs.find? (fun r => r.user_id == u && r.status == "active") =
      none) :
    extend_subscription now u months st = .ok (none, st) := by
  unfold extend_subscription
  rw [h]

theorem extend_subscription_no_active_witness :
    extend_subscription 200 2 1 exSt1 = .ok (none, exSt1) :=
  extend_subscription_no_active 200 2 1 exSt1 (by decide)

/-- Claim C7: `is_subscription_active` holds exactly when the status is
`active` and `now ≤ end_date` (for a `datetime`-valued end date), and a
`cancelled` record is never reported expired by
`check_subscription_expiry`. -/
theorem is_subscription_active_iff (now t : Int) (sub : SubRecord) :
    (sub.end_date = .dt t →
      (is_subscription_active now sub = .ok true ↔
        (sub.status = some "active" ∧ now ≤ t))) ∧
    (sub.status = some "cancelled" →
      check_subscription_expiry now sub = .ok false) := by
  constructor
  · intro hend
    unfold is_subscription_active check_subscription_expiry
    by_cases hst : sub.status = some "active"
    · simp [hst, hend, Except.map]
    · simp [hst]
  · intro hc
    unfold check_subscription_expiry
    simp [hc]

theorem is_subscription_active_iff_witness :
    is_subscription_active 60 { status := some "active", end_date := .dt 100 }
      = .ok true := by
  have h := (is_subscription_active_iff 60 100
    { status := some "active", end_date := .dt 100 }).1 rfl
  exact h.mpr ⟨rfl, by decide⟩

/-- Claim C3: a `payment.captured` webhook for a payment whose status is
already `completed` changes nothing: the handler returns 200 with the
store untouched (it proceeds only when the status is `pending`). -/
theorem razorpay_webhook_completed_noop (now : Int) (oid eid sig : String)
    (st : DBState) (p : Payment)
    (hp : get_payment_by_order_id oid st = some p)
    (hs : p.status = "completed") :
    razorpay_webhook true now "payment.captured" (some oid) eid sig st =
      .ok st := by
  unfold razorpay_webhook
  by_cases hoid : oid = ""
  · simp [hoid]
  · simp [hoid, hp, hs]

theorem razorpay_webhook_completed_noop_witness :
    razorpay_webhook true 1000 "payment.captured" (some "order1") "pay1"
      "sig1" exSt1 = .ok exSt1 :=
  razorpay_webhook_completed_noop 1000 "order1" "pay1" "sig1" exSt1
    exPayment1 (by decide) (by decide)

/-- Claim C10, counterexample: for a non-cancelled record whose `end_date`
is a string that is not parseable ISO, `check_subscription_expiry` does
not return `True` — it raises (`fromisoformat` throws `ValueError`), and
`is_subscription_active` propagates the exception instead of returning
`False`. -/
theorem check_expiry_unparseable_cex :
    check_subscription_expiry 0
      { status := some "active", end_date := .str "garbage" } = .error () ∧
    check_subscription_expiry 0
      { status := some "active", end_date := .str "garbage" } ≠ .ok true ∧
    is_subscription_active 0
      { status := some "active", end_date := .str "garbage" } ≠ .ok false := by
  decide

/-- The catch-all equation of `replaceZ`. -/
lemma replaceZ_cons_ne (x : Char) (xs : List Char) (hx : x ≠ 'Z') :
    replaceZ (x :: xs) = x :: replaceZ xs := by
  conv_lhs => unfold replaceZ
  split
  all_goals rename_i heq
  · simp at heq
  · injection heq with h1 _
    exact absurd h1 hx
  · injection heq with h1 h2
    rw [h1, h2]

/-- The head of the `Z`-replaced form of a digit-free string is not a
digit: the replacement only ever contributes a leading `+`. -/
lemma replaceZ_head (l : List Char) (h : ∀ c ∈ l, c.isDigit = false) :
    ∀ c rest, replaceZ l = c :: rest → c.isDigit = false := by
  cases l with
  | nil =>
      intro c rest hcl
      simp [replaceZ] at hcl
  | cons x xs =>
      intro c rest hcl
      by_cases hx : x = 'Z'
      · subst hx
        have hz : replaceZ ('Z' :: xs) =
            '+' :: '0' :: '0' :: ':' :: '0' :: '0' :: replaceZ xs := rfl
        rw [hz] at hcl
        injection hcl with h1 _
        rw [← h1]
        decide
      · rw [replaceZ_cons_ne x xs hx] at hcl
        injection hcl with h1 _
        rw [← h1]
        exact h x (by simp)

/-- A string with no digit in it fails ISO parsing.  This hinges only on
facts true of every CPython `datetime.fromisoformat` (3.7 through
current): every accepted format begins with a digit, and the source's
`replace("Z", "+00:00")` can only put a `+` at the front.  Theorems that
quantify over string end dates use this fragment, where the model and
every CPython version agree on rejection. -/
lemma fromisoformat_digit_free (s : String)
    (h : ∀ c ∈ s.data, c.isDigit = false) :
    fromisoformat (isoPre s) = none := by
  unfold fromisoformat
  split
  · next y1 y2 y3 y4 m1 m2 d1 d2 rest heq =>
      have hy : y1.isDigit = false := by
        apply replaceZ_head s.data h y1
          (y2 :: y3 :: y4 :: '-' :: m1 :: m2 :: '-' :: d1 :: d2 :: rest)
        exact heq
      simp [digitVal, hy]
  · rfl

/-- Claim C10, amended: a non-cancelled record with `end_date` absent or
of a non-string non-datetime type is treated as expired
(`check_subscription_expiry` returns `True`); a string `end_date` that
ISO parsing rejects raises instead — certified here for every digit-free
string (such as the counterexample's `"garbage"`), a class on which every
CPython version's parser fails.  In either malformed case
`is_subscription_active` never returns `True`, so the record never grants
access. -/
theorem check_expiry_malformed (now : Int) (sub : SubRecord)
    (hnc : sub.status ≠ some "cancelled") :
    ((sub.end_date = .null ∨ sub.end_date = .other) →
        check_subscription_expiry now sub = .ok true ∧
        is_subscription_active now sub ≠ .ok true) ∧
    (∀ s, sub.end_date = .str s → (∀ c ∈ s.data, c.isDigit = false) →
        check_subscription_expiry now sub = .error () ∧
        is_subscription_active now sub ≠ .ok true) := by
  constructor
  · intro hend
    have hch : check_subscription_expiry now sub = .ok true := by
      unfold check_subscription_expiry
      rcases hend with h | h <;> simp [hnc, h]
    refine ⟨hch, ?_⟩
    unfold is_subscription_active
    by_cases hst : sub.status = some "active"
    · simp [hst, hch, Except.map]
    · simp [hst]
  · intro s hend hdf
    have hparse : fromisoformat (isoPre s) = none :=
      fromisoformat_digit_free s hdf
    have hch : check_subscription_expiry now sub = .error () := by
      unfold check_subscription_expiry
      simp [hnc, hend, hparse]
    refine ⟨hch, ?_⟩
    unfold is_subscription_active
    by_cases hst : sub.status = some "active"
    · simp [hst, hch, Except.map]
    · simp [hst]

theorem check_expiry_malformed_witness :
    check_subscription_expiry 0 { status := some "active", end_date := .null }
      = .ok true ∧
    check_subscription_expiry 0
      { status := some "active", end_date := .str "garbage" } = .error () := by
  constructor
  · exact ((check_expiry_malformed 0
      { status := some "active", end_date := .null } (by decide)).1
        (Or.inl rfl)).1
  · exact ((check_expiry_malformed 0
      { status := some "active", end_date := .str "garbage" } (by decide)).2
        "garbage" rfl (by decide)).1

/-- Claim C2, counterexample: at `now = 200` the stored row is past its
end date (`check_subscription_expiry` says expired, `is_subscription_active`
says inactive), yet `get_user_subscription` returns it still carrying
status `active`: the source performs a single `find_one` and no write, so
nothing is persisted as `expired` at "current subscription" query time. -/
theorem get_user_subscription_no_expiry_cex :
    get_user_subscription 1 exSt2 = some exSubLate ∧
    exSubLate.status = "active" ∧
    check_subscription_expiry 200 exSubLate.toRecord = .ok true ∧
    is_subscription_active 200 exSubLate.toRecord = .ok false := by
  decide

/-- Claim C1, counterexample: in `exSt1` the payment for `order1` is
already `completed` and user 1 has one subscription row; a second call to
the verify route with a valid signature is not rejected and is not a
no-op — it succeeds and leaves user 1 with two subscription rows (renewal
inserted a fresh one). -/
theorem verify_payment_second_call_cex :
    exPayment1.status = "completed" ∧
    exSt1.subs.length = 1 ∧
    (verify_payment true 1000 1 "order1" "pay1" "sig1" exSt1).map
      (fun r => r.2.subs.length) = .ok 2 := by
  decide

/-- After the `update_many` of a renewal, no row of the user is `active`:
a matching row was just set to `cancelled`, and a non-matching row of the
user was not `active` to begin with. -/
lemma cancelCurrent_not_active (now : Int) (u : Nat) (s : Subscription) :
    ((cancelCurrent now u s).user_id == u &&
      (cancelCurrent now u s).status == "active") = false := by
  unfold cancelCurrent isCurrentFor
  by_cases hu : s.user_id == u
  · by_cases ha : s.status == "active"
    · simp [hu, ha]
    · by_cases he : s.status == "expired"
      · simp [hu, ha, he]
      · simp [hu, ha, he]
  · simp [hu]

/-- The cancelled collection contains no active row of the user. -/
lemma filter_map_cancel_nil (now : Int) (u : Nat) (l : List Subscription) :
    (l.map (cancelCurrent now u)).filter
      (fun s => s.user_id == u && s.status == "active") = [] := by
  induction l with
  | nil => rfl
  | cons s t ih =>
      simp [List.filter_cons, cancelCurrent_not_active now u s, ih]

/-- Shape of the store after `renew_subscription`: all rows rewritten by
the cancel pass, plus the freshly inserted row. -/
lemma renew_subs_shape (now : Int) (u : Nat) (months : Int) (st : DBState) :
    (renew_subscription now u months st).2.subs =
      st.subs.map (cancelCurrent now u) ++
        [(renew_subscription now u months st).1] := by
  rfl

/-- After `renew_subscription` the user has exactly one `active` row. -/
lemma countActive_renew (now : Int) (u : Nat) (months : Int) (st : DBState) :
    countActive u (renew_subscription now u months st).2 = 1 := by
  unfold countActive
  rw [renew_subs_shape, List.filter_append, filter_map_cancel_nil]
  simp [renew_subscription, create_subscription]

/-- A row of the user that was `active` or `expired` is rewritten to
`cancelled` with `cancelled_at` stamped. -/
lemma cancelCurrent_cancels (now : Int) (u : Nat) (s : Subscription)
    (hu : s.user_id = u)
    (hs : s.status = "active" ∨ s.status = "expired") :
    (cancelCurrent now u s).status = "cancelled" ∧
    (cancelCurrent now u s).cancelled_at = some now := by
  unfold cancelCurrent isCurrentFor
  rcases hs with h | h <;> simp [hu, h]

/-- Claim C4: after `renew_subscription(u, months)`, exactly one row of
the user is `active` — the inserted one, with `start_date = now` and
`end_date` from the time policy — and every row that previously was
`active` or `expired` is now `cancelled` with `cancelled_at` set. -/
theorem renew_subscription_post (now : Int) (u : Nat) (months : Int)
    (st : DBState) :
    countActive u (renew_subscription now u months st).2 = 1 ∧
    (renew_subscription now u months st).1.status = "active" ∧
    (renew_subscription now u months st).1.start_date = now ∧
    (renew_subscription now u months st).1.end_date =
      .dt (calculate_end_date now months) ∧
    (renew_subscription now u months st).2.subs.length =
      st.subs.length + 1 ∧
    ∀ i (h1 : i < st.subs.length)
      (h2 : i < (renew_subscription now u months st).2.subs.length),
      (st.subs.get ⟨i, h1⟩).user_id = u →
      ((st.subs.get ⟨i, h1⟩).status = "active" ∨
        (st.subs.get ⟨i, h1⟩).status = "expired") →
      ((renew_subscription now u months st).2.subs.get ⟨i, h2⟩).status =
          "cancelled" ∧
      ((renew_subscription now u months st).2.subs.get ⟨i, h2⟩).cancelled_at
          = some now := by
  refine ⟨countActive_renew now u months st, rfl, rfl, rfl, ?_, ?_⟩
  · rw [renew_subs_shape]
    simp
  · intro i h1 h2 hu hs
    have hg : (renew_subscription now u months st).2.subs.get ⟨i, h2⟩ =
        cancelCurrent now u (st.subs.get ⟨i, h1⟩) := by
      simp only [List.get_eq_getElem, renew_subs_shape]
      rw [List.getElem_append_left (by simpa using h1)]
      simp
    rw [hg]
    exact cancelCurrent_cancels now u _ hu hs

theorem renew_subscription_post_witness :
    countActive 1 (renew_subscription 1000 1 1 exSt1).2 = 1 ∧
    ((renew_subscription 1000 1 1 exSt1).2.subs.get
        ⟨0, by decide⟩).status = "cancelled" := by
  have h := renew_subscription_post 1000 1 1 exSt1
  refine ⟨h.1, ?_⟩
  exact (h.2.2.2.2.2 0 (by decide) (by decide) (by decide)
    (Or.inl (by decide))).1

/-- `update_payment_status` touches only the `payments` collection. -/
lemma update_payment_status_subs (oid pid sig stt : String) (st : DBState) :
    ((update_payment_status oid pid sig stt st).2).subs = st.subs := by
  unfold update_payment_status
  cases get_payment_by_order_id oid st <;> rfl

/-- Claim C1, amended: a second verify call on a completed payment with a
valid signature and matching owner succeeds and re-runs the renewal: the
store gains one additional subscription row, after which the user has
exactly one `active` row. -/
theorem verify_payment_completed_again (now : Int) (uid : Nat)
    (oid pid sig : String) (st : DBState) (p : Payment)
    (hp : get_payment_by_order_id oid st = some p)
    (hu : p.user_id = some uid)
    (_hc : p.status = "completed") :
    (verify_payment true now uid oid pid sig st).map
        (fun r => r.2.subs.length) = .ok (st.subs.length + 1) ∧
    (verify_payment true now uid oid pid sig st).map
        (fun r => countActive uid r.2) = .ok 1 := by
  unfold verify_payment
  rw [hp]
  simp only [hu, ne_eq, not_true_eq_false, if_false, Bool.not_true,
    if_neg (by simp : ¬ (¬ true = true))]
  constructor
  · simp only [Except.map]
    rw [renew_subs_shape]
    simp [update_payment_status_subs]
  · simp only [Except.map]
    rw [countActive_renew]

theorem verify_payment_completed_again_witness :
    (verify_payment true 1000 1 "order1" "pay1" "sig1" exSt1).map
        (fun r => r.2.subs.length) = .ok (exSt1.subs.length + 1) ∧
    (verify_payment true 1000 1 "order1" "pay1" "sig1" exSt1).map
        (fun r => countActive 1 r.2) = .ok 1 :=
  verify_payment_completed_again 1000 1 "order1" "pay1" "sig1" exSt1
    exPayment1 (by decide) (by decide) (by decide)

/-- `update_one` hits the first matching row: if the first match of `q`
in `l` is `a` and `f a` still matches `q`, the first match after the
update is `f a`. -/
lemma find?_updateFirst_self {α : Type} (q : α → Bool) (f : α → α)
    (l : List α) (a : α) (h : l.find? q = some a) (hf : q (f a) = true) :
    (updateFirst q f l).find? q = some (f a) := by
  induction l with
  | nil => simp at h
  | cons x xs ih =>
      by_cases hx : q x = true
      · rw [List.find?_cons_of_pos _ hx] at h
        cases h
        unfold updateFirst
        rw [if_pos hx, List.find?_cons_of_pos _ hf]
      · rw [List.find?_cons_of_neg _ (by simp [hx])] at h
        unfold updateFirst
        rw [if_neg (by simp [hx]), List.find?_cons_of_neg _ (by simp [hx])]
        exact ih h

/-- `update_one` preserves the collection's size. -/
lemma length_updateFirst {α : Type} (q : α → Bool) (f : α → α)
    (l : List α) : (updateFirst q f l).length = l.length := by
  induction l with
  | nil => rfl
  | cons x xs ih =>
      unfold updateFirst
      by_cases hx : q x = true
      · rw [if_pos hx]; simp
      · rw [if_neg (by simp [hx])]; simp [ih]

/-- A row not matching the filter is untouched by `update_one`. -/
lemma updateFirst_get?_of_neg {α : Type} (q : α → Bool) (f : α → α) :
    ∀ (l : List α) (i : Nat) (h1 : i < l.length),
      q (l.get ⟨i, h1⟩) = false →
      (updateFirst q f l).get? i = l.get? i := by
  intro l
  induction l with
  | nil => intro i h1; simp at h1
  | cons x xs ih =>
      intro i h1 hq
      unfold updateFirst
      by_cases hx : q x = true
      · rw [if_pos hx]
        cases i with
        | zero => simp at hq; rw [hq] at hx; cases hx
        | succ j => simp
      · rw [if_neg (by simp [hx])]
        cases i with
        | zero => rfl
        | succ j =>
            simp only [List.get?_cons_succ]
            exact ih j (by simpa using h1) (by simpa using hq)

/-- Claim C2, amended: at login (`verify_user` with correct credentials),
a subscription row of the user that is `active` but past its end date is
persisted as `expired` (with `updated_at` refreshed) before the user is
returned.  (`get_user_subscription` never writes — see the
counterexample.) -/
theorem verify_user_persists_expiry (now t : Int) (e pw : String)
    (st : DBState) (u : User) (s : Subscription)
    (hu : st.users.find? (fun x => x.email == e) = some u)
    (hpw : verify_password pw u.password_hash = true)
    (hs : st.subs.find?
      (fun r => r.user_id == u.uid && r.status == "active") = some s)
    (huniq : st.subs.find? (fun r => r.sid == s.sid) = some s)
    (hend : s.end_date = .dt t) (ht : t < now) :
    (verify_user now e pw st).map (fun r => r.1) = .ok (some u) ∧
    (verify_user now e pw st).map
        (fun r => r.2.subs.find? (fun x => x.sid == s.sid)) =
      .ok (some { s with status := "expired", updated_at := now }) := by
  have hact : s.status = "active" := by
    have hp := List.find?_some hs
    simp only [Bool.and_eq_true, beq_iff_eq] at hp
    exact hp.2
  have hch : check_subscription_expiry now s.toRecord = .ok true := by
    unfold check_subscription_expiry Subscription.toRecord
    simp [hact, hend, ht]
  unfold verify_user
  simp only [hu, hpw, hs, hch, not_true_eq_false, if_false, if_true,
    ite_true, ite_false, eq_self_iff_true, Bool.false_eq_true]
  refine ⟨rfl, ?_⟩
  simp only [Except.map]
  exact congrArg Except.ok (find?_updateFirst_self _ _ _ _ huniq (by simp))

theorem verify_user_persists_expiry_witness :
    (verify_user 200 "a@b.c" "pw" exSt2).map (fun r => r.1) =
      .ok (some exUser) ∧
    (verify_user 200 "a@b.c" "pw" exSt2).map
        (fun r => r.2.subs.find? (fun x => x.sid == exSubLate.sid)) =
      .ok (some { exSubLate with status := "expired", updated_at := 200 }) :=
  verify_user_persists_expiry 200 100 "a@b.c" "pw" exSt2 exUser exSubLate
    (by decide) (by decide) (by decide) (by decide) (by decide) (by decide)

/-- Claim C6: extending a user's `active` subscription whose stored end
date is `t` persists `end_date = t + 30*months` days — stacking onto the
stored end date, not onto `now` (which does not occur in the new end
date) — refreshes `updated_at`, changes no other field of that row, and
touches no other row. -/
theorem extend_subscription_stacks (now t : Int) (u : Nat) (months : Int)
    (st : DBState) (s : Subscription)
    (hfind : st.subs.find?
      (fun r => r.user_id == u && r.status == "active") = some s)
    (huniq : st.subs.find? (fun r => r.sid == s.sid) = some s)
    (hend : s.end_date = .dt t) :
    (extend_subscription now u months st).map (fun r => r.1) =
      .ok (some { s with end_date := .dt (t + 30 * months * secondsPerDay),
                         updated_at := now }) ∧
    (extend_subscription now u months st).map (fun r => r.2.subs.length) =
      .ok st.subs.length ∧
    (∀ i (h1 : i < st.subs.length),
      (st.subs.get ⟨i, h1⟩).sid ≠ s.sid →
      (extend_subscription now u months st).map
        (fun r => r.2.subs.get? i) = .ok (st.subs.get? i)) := by
  have harith : calculate_end_date t months =
      t + 30 * months * secondsPerDay := by
    unfold calculate_end_date
    ring
  have hfind2 := find?_updateFirst_self (fun r => r.sid == s.sid)
    (fun r => { r with end_date := .dt (calculate_end_date t months),
                       updated_at := now })
    st.subs s huniq (by simp)
  unfold extend_subscription
  simp only [hfind, hend, Except.bind, bind, hfind2, Except.map]
  refine ⟨?_, ?_, ?_⟩
  · rw [harith]
  · exact congrArg Except.ok
      (length_updateFirst (fun r => r.sid == s.sid) _ st.subs)
  · intro i h1 hne
    exact congrArg Except.ok
      (updateFirst_get?_of_neg (fun r => r.sid == s.sid) _ st.subs i h1
        (by simp only [List.get_eq_getElem] at hne; simp [hne]))

theorem extend_subscription_stacks_witness :
    (extend_subscription 200 1 2 exSt1).map (fun r => r.1) =
      .ok (some { exSubA with
        end_date := .dt ((50 + 30 * 86400) + 30 * 2 * secondsPerDay),
        updated_at := 200 }) ∧
    (extend_subscription 200 1 2 exSt1).map (fun r => r.2.subs.length) =
      .ok exSt1.subs.length :=
  ⟨(extend_subscription_stacks 200 (50 + 30 * 86400) 1 2 exSt1 exSubA
      (by decide) (by decide) (by decide)).1,
   (extend_subscription_stacks 200 (50 + 30 * 86400) 1 2 exSt1 exSubA
      (by decide) (by decide) (by decide)).2.1⟩

/-- One-step equation for the retry loop. -/
lemma create_order_go_eq (o : Nat → AttemptOutcome) (a d : Nat)
    (sl : List Nat) :
    create_order_go o a d sl =
      if _h : a < max_retries then
        match o a with
        | .success oid => (.ok oid, sl)
        | .badRequest => (.error .validationError, sl)
        | e =>
            if a < max_retries - 1 ∧ isRetryable e then
              create_order_go o (a + 1) (d * 2) (sl ++ [d])
            else
              match e with
              | .serverError => (.error .serviceUnavailable, sl)
              | .connError => (.error .serviceUnavailable, sl)
              | .timeoutErr => (.error .serviceUnavailable, sl)
              | _ => (.error .internalError, sl)
      else (.error .serviceUnavailable, sl) := by
  conv_lhs => unfold create_order_go

/-- A successful gateway call returns the order at once, with no sleeps
added. -/
lemma go_success (o : Nat → AttemptOutcome) (a d : Nat) (sl : List Nat)
    (ha : a < max_retries) (oid : String) (ho : o a = .success oid) :
    create_order_go o a d sl = (.ok oid, sl) := by
  rw [create_order_go_eq, dif_pos ha]
  simp only [ho]

/-- A gateway `BadRequestError` raises `ValueError` at once: no retry. -/
lemma go_badRequest (o : Nat → AttemptOutcome) (a d : Nat) (sl : List Nat)
    (ha : a < max_retries) (ho : o a = .badRequest) :
    create_order_go o a d sl = (.error .validationError, sl) := by
  rw [create_order_go_eq, dif_pos ha]
  simp only [ho]

/-- A non-retryable unexpected exception raises at once: no retry. -/
lemma go_other (o : Nat → AttemptOutcome) (a d : Nat) (sl : List Nat)
    (ha : a < max_retries) (ho : o a = .otherError) :
    create_order_go o a d sl = (.error .internalError, sl) := by
  rw [create_order_go_eq, dif_pos ha]
  simp only [ho, isRetryable, Bool.false_eq_true, and_false, if_false]

/-- A transient failure before the last attempt sleeps `d` seconds and
retries with the doubled delay. -/
lemma go_step_retry (o : Nat → AttemptOutcome) (a d : Nat) (sl : List Nat)
    (ha : a < max_retries - 1) (hr : isRetryable (o a) = true) :
    create_order_go o a d sl =
      create_order_go o (a + 1) (d * 2) (sl ++ [d]) := by
  have ha3 : a < max_retries := by
    unfold max_retries at ha ⊢
    omega
  cases ho : o a with
  | success oid => rw [ho] at hr; simp [isRetryable] at hr
  | badRequest => rw [ho] at hr; simp [isRetryable] at hr
  | otherError => rw [ho] at hr; simp [isRetryable] at hr
  | connError =>
      rw [create_order_go_eq, dif_pos ha3]
      simp only [ho, isRetryable, and_true]
      rw [if_pos ha]
  | timeoutErr =>
      rw [create_order_go_eq, dif_pos ha3]
      simp only [ho, isRetryable, and_true]
      rw [if_pos ha]
  | serverError =>
      rw [create_order_go_eq, dif_pos ha3]
      simp only [ho, isRetryable, and_true]
      rw [if_pos ha]

/-- A transient failure on the last attempt raises `ConnectionError`
(the 503 class), with no further sleep. -/
lemma go_last (o : Nat → AttemptOutcome) (d : Nat) (sl : List Nat)
    (hr : isRetryable (o 2) = true) :
    create_order_go o 2 d sl = (.error .serviceUnavailable, sl) := by
  cases ho : o 2 with
  | success oid => rw [ho] at hr; simp [isRetryable] at hr
  | badRequest => rw [ho] at hr; simp [isRetryable] at hr
  | otherError => rw [ho] at hr; simp [isRetryable] at hr
  | connError =>
      rw [create_order_go_eq, dif_pos (by decide : (2:Nat) < max_retries)]
      simp only [ho, isRetryable, and_true]
      rw [if_neg (by unfold max_retries; omega)]
  | timeoutErr =>
      rw [create_order_go_eq, dif_pos (by decide : (2:Nat) < max_retries)]
      simp only [ho, isRetryable, and_true]
      rw [if_neg (by unfold max_retries; omega)]
  | serverError =>
      rw [create_order_go_eq, dif_pos (by decide : (2:Nat) < max_retries)]
      simp only [ho, isRetryable, and_true]
      rw [if_neg (by unfold max_retries; omega)]

/-- The loop consults only the outcomes of attempts below `max_retries`:
at most 3 gateway calls are ever made. -/
lemma go_congr (o o2 : Nat → AttemptOutcome)
    (hoo : ∀ i, i < max_retries → o i = o2 i) :
    ∀ (fuel a d : Nat) (sl : List Nat), max_retries ≤ a + fuel →
      create_order_go o a d sl = create_order_go o2 a d sl := by
  intro fuel
  induction fuel with
  | zero =>
      intro a d sl hf
      have h3 : ¬ a < max_retries := by omega
      rw [create_order_go_eq o, dif_neg h3, create_order_go_eq o2,
        dif_neg h3]
  | succ n ih =>
      intro a d sl hf
      by_cases h3 : a < max_retries
      · rw [create_order_go_eq o, create_order_go_eq o2, dif_pos h3,
          dif_pos h3, hoo a h3]
        cases ho : o2 a with
        | success oid => simp only [ho]
        | badRequest => simp only [ho]
        | otherError =>
            simp only [ho, isRetryable, Bool.false_eq_true, and_false,
              if_false]
        | connError =>
            simp only [ho, isRetryable, and_true]
            by_cases hm : a < max_retries - 1
            · rw [if_pos hm, if_pos hm]
              exact ih (a + 1) (d * 2) (sl ++ [d]) (by omega)
            · rw [if_neg hm, if_neg hm]
        | timeoutErr =>
            simp only [ho, isRetryable, and_true]
            by_cases hm : a < max_retries - 1
            · rw [if_pos hm, if_pos hm]
              exact ih (a + 1) (d * 2) (sl ++ [d]) (by omega)
            · rw [if_neg hm, if_neg hm]
        | serverError =>
            simp only [ho, isRetryable, and_true]
            by_cases hm : a < max_retries - 1
            · rw [if_pos hm, if_pos hm]
              exact ih (a + 1) (d * 2) (sl ++ [d]) (by omega)
            · rw [if_neg hm, if_neg hm]
      · rw [create_order_go_eq o, dif_neg h3, create_order_go_eq o2,
          dif_neg h3]

/-- Claim C5: `create_order` makes at most 3 attempts; it sleeps 1s before
the second and 2s before the third; it retries only transient failures; a
gateway bad-request raises the client-input error immediately with no
sleep; a non-retryable unexpected error also raises immediately; three
transient failures raise the service-unavailable error, a class distinct
from the validation error. -/
theorem create_order_spec (o : Nat → AttemptOutcome) :
    ((isRetryable (o 0) = true ∧ isRetryable (o 1) = true ∧
        isRetryable (o 2) = true) →
      create_order o = (.error .serviceUnavailable, [1, 2])) ∧
    (o 0 = .badRequest → create_order o = (.error .validationError, [])) ∧
    (o 0 = .otherError → create_order o = (.error .internalError, [])) ∧
    (∀ oid, o 0 = .success oid → create_order o = (.ok oid, [])) ∧
    (isRetryable (o 0) = true → ∀ oid, o 1 = .success oid →
      create_order o = (.ok oid, [1])) ∧
    (∀ o2 : Nat → AttemptOutcome, (∀ i, i < max_retries → o i = o2 i) →
      create_order o = create_order o2) ∧
    OrderError.serviceUnavailable ≠ OrderError.validationError := by
  refine ⟨?_, ?_, ?_, ?_, ?_, ?_, by decide⟩
  · rintro ⟨h0, h1, h2⟩
    unfold create_order
    rw [go_step_retry o 0 1 [] (by decide) h0]
    simp only [List.nil_append]
    rw [go_step_retry o 1 2 [1] (by decide) h1]
    simp only [List.cons_append, List.nil_append]
    exact go_last o 4 [1, 2] h2
  · intro h
    unfold create_order
    exact go_badRequest o 0 1 [] (by decide) h
  · intro h
    unfold create_order
    exact go_other o 0 1 [] (by decide) h
  · intro oid h
    unfold create_order
    exact go_success o 0 1 [] (by decide) oid h
  · intro h0 oid h1
    unfold create_order
    rw [go_step_retry o 0 1 [] (by decide) h0]
    simp only [List.nil_append]
    exact go_success o 1 2 [1] (by decide) oid h1
  · intro o2 hoo
    exact go_congr o o2 hoo max_retries 0 1 [] (by omega)

theorem create_order_spec_witness :
    create_order (fun _ => AttemptOutcome.connError) =
      (.error .serviceUnavailable, [1, 2]) :=
  (create_order_spec (fun _ => AttemptOutcome.connError)).1
    ⟨by decide, by decide, by decide⟩
